import Mathlib

/-!
# track_renames: event trigger forwarding object renames to a handler

Shallow embedding of `track_renames.c`.  The C entry point `track_renames`
is one function; here its three phases are separate definitions named after
the C variables they compute:

* `objtype`   : the `switch (statement->renameType)` (lines 77-187),
* `fcinfo1`   : the filling of `fcinfo1.arg[0..4]` / `fcinfo1.argnull[0..4]`
                (lines 189-232),
* `track_renames` : the whole entry point (lines 34-237).

Side effects (warnings, the handler invocation) are recorded in an explicit
log; `elog(ERROR, ...)` is an `Except.error` result.
-/

namespace TrackRenames

/-- Modelled from the spec: the C enum `ObjectType` is declared in PostgreSQL's
`nodes/parsenodes.h`, which is not part of this repository.  The first 35
constructors are the enum members the `switch` of `track_renames` names, in the
order of its `case` labels; `OBJECT_UNRECOGNIZED tag` stands for any other
integer value of the enum type (the spec's "other/unrecognized" sentinel), the
values that reach the `default:` label. -/
inductive ObjectType where
  | OBJECT_AGGREGATE
  | OBJECT_ATTRIBUTE
  | OBJECT_CAST
  | OBJECT_COLUMN
  | OBJECT_CONSTRAINT
  | OBJECT_COLLATION
  | OBJECT_CONVERSION
  | OBJECT_DATABASE
  | OBJECT_DOMAIN
  | OBJECT_EVENT_TRIGGER
  | OBJECT_EXTENSION
  | OBJECT_FDW
  | OBJECT_FOREIGN_SERVER
  | OBJECT_FOREIGN_TABLE
  | OBJECT_FUNCTION
  | OBJECT_INDEX
  | OBJECT_LANGUAGE
  | OBJECT_LARGEOBJECT
  | OBJECT_MATVIEW
  | OBJECT_OPCLASS
  | OBJECT_OPERATOR
  | OBJECT_OPFAMILY
  | OBJECT_ROLE
  | OBJECT_RULE
  | OBJECT_SCHEMA
  | OBJECT_SEQUENCE
  | OBJECT_TABLE
  | OBJECT_TABLESPACE
  | OBJECT_TRIGGER
  | OBJECT_TSCONFIGURATION
  | OBJECT_TSDICTIONARY
  | OBJECT_TSPARSER
  | OBJECT_TSTEMPLATE
  | OBJECT_TYPE
  | OBJECT_VIEW
  | OBJECT_UNRECOGNIZED (tag : Nat)
  deriving DecidableEq, Repr

open ObjectType

/-- Object identifiers of the catalog. -/
abbrev Oid := Nat

/-- The `InvalidOid` constant of PostgreSQL. -/
def InvalidOid : Oid := 0

/-- The fields of PostgreSQL's `RangeVar` that `track_renames` reads.
`schemaname` is a nullable `char *`; `relname` is always set. -/
structure RangeVar where
  schemaname : Option String
  relname : String
  deriving DecidableEq, Repr

/-- The fields of PostgreSQL's `RenameStmt` that `track_renames` reads.
`relation` and `subname` are nullable pointers; `object` is a `List *` of name
parts, whose null value `NIL` is the empty list. -/
structure RenameStmt where
  renameType : ObjectType
  relation : Option RangeVar
  object : List String
  subname : Option String
  newname : String
  deriving DecidableEq, Repr

/-- A parse tree node: either a `RenameStmt` (node tag `T_RenameStmt`) or a
node with any other tag. -/
inductive Node where
  | T_RenameStmt (statement : RenameStmt)
  | T_Other (tag : Nat)
  deriving DecidableEq, Repr

/-- The field of `EventTriggerData` that `track_renames` reads. -/
structure EventTriggerData where
  parsetree : Node
  deriving DecidableEq, Repr

/-- The `context` of the incoming call: `CALLED_AS_EVENT_TRIGGER(fcinfo)` holds
exactly when it is an `EventTriggerData` node. -/
inductive CallContext where
  | eventTrigger (trigdata : EventTriggerData)
  | notEventTrigger
  deriving DecidableEq, Repr

/-- The arguments of the outgoing call: entry `i` is `none` when
`fcinfo1.argnull[i]` is true and `some s` when `fcinfo1.argnull[i]` is false
and `fcinfo1.arg[i]` is the text datum `s`. -/
abbrev Args := List (Option String)

/-- Observable side effects of one call of `track_renames`. -/
inductive Effect where
  | warning (msg : String)
  | invoke (fn : Oid) (args : Args)
  deriving DecidableEq, Repr

/-- What one call of `track_renames` does: the effects in program order, and
how it ends, `Except.error msg` for `elog(ERROR, msg)` (raised here or by the
invoked handler) and `Except.ok none` for `PG_RETURN_NULL()`. -/
structure Outcome where
  effects : List Effect
  result : Except String (Option String)

/-- The ambient PostgreSQL services the entry point calls.
* `GetConfigOption` : value of `track_renames.function` (`none` for `NULL`);
* `LookupFuncName`  : oid of the function of that name with five `text`
  arguments, `InvalidOid` when there is none (the call passes `noError = true`);
* `FunctionCallInvoke` : running the function: it returns a datum or raises. -/
structure Backend where
  GetConfigOption : Option String
  LookupFuncName : String → Oid
  FunctionCallInvoke : Oid → Args → Except String (Option String)

/-- Modelled from the spec: `NameListToString` is PostgreSQL's, not part of this
repository; the spec has it join the parts of the dotted name list into a single
string.  It is written as the loop over the list that starts from the empty
string buffer and appends a `'.'` before every part but the first;
`NameListToString_eq_intercalate` shows that this is the join with `"."`. -/
def NameListToString (names : List String) : String :=
  match names with
  | [] => ""
  | n :: rest => rest.foldl (fun string name => (string.push '.') ++ name) n

/-- Modelled from the spec: `func_signature_string` is PostgreSQL's, not part of
this repository, and the spec leaves the text of the warning open; it is used
for that text only, rendered here as the unqualified name followed by the five
argument types of `argtypes`, each `TEXTOID`. -/
def func_signature_string (funcname : String) : String :=
  funcname ++ "(text, text, text, text, text)"

/-- The `switch (statement->renameType)` of lines 77-187: the value assigned
to `objtype`, and the warnings logged on the way. -/
def objtype (renameType : ObjectType) : String × List Effect :=
  match renameType with
  | OBJECT_AGGREGATE => ("aggregate", [])
  | OBJECT_ATTRIBUTE => ("attribute", [])
  | OBJECT_CAST => ("cast", [])
  | OBJECT_COLUMN => ("column", [])
  | OBJECT_CONSTRAINT => ("constraint", [])
  | OBJECT_COLLATION => ("collation", [])
  | OBJECT_CONVERSION => ("conversion", [])
  | OBJECT_DATABASE => ("database", [])
  | OBJECT_DOMAIN => ("domain", [])
  | OBJECT_EVENT_TRIGGER => ("event_trigger", [])
  | OBJECT_EXTENSION => ("extension", [])
  | OBJECT_FDW => ("fdw", [])
  | OBJECT_FOREIGN_SERVER => ("foreign_server", [])
  | OBJECT_FOREIGN_TABLE => ("foreign_table", [])
  | OBJECT_FUNCTION => ("function", [])
  | OBJECT_INDEX => ("index", [])
  | OBJECT_LANGUAGE => ("language", [])
  | OBJECT_LARGEOBJECT => ("largeobject", [])
  | OBJECT_MATVIEW => ("matview", [])
  | OBJECT_OPCLASS => ("opclass", [])
  | OBJECT_OPERATOR => ("operator", [])
  | OBJECT_OPFAMILY => ("opfamily", [])
  | OBJECT_ROLE => ("role", [])
  | OBJECT_RULE => ("rule", [])
  | OBJECT_SCHEMA => ("schema", [])
  | OBJECT_SEQUENCE => ("sequence", [])
  | OBJECT_TABLE => ("table", [])
  | OBJECT_TABLESPACE => ("tablespace", [])
  | OBJECT_TRIGGER => ("trigger", [])
  | OBJECT_TSCONFIGURATION => ("tsconfiguration", [])
  | OBJECT_TSDICTIONARY => ("tsdictionary", [])
  | OBJECT_TSPARSER => ("tsparser", [])
  | OBJECT_TSTEMPLATE => ("tstemplate", [])
  | OBJECT_TYPE => ("type", [])
  | OBJECT_VIEW => ("view", [])
  | OBJECT_UNRECOGNIZED _ => ("unknown", [Effect.warning "Unknown object type"])

/-- Lines 189-232: the five arguments stored in `fcinfo1`, from the classified
`objtype` and the statement.  Positions 1 and 2 come from the three-way
`if (statement->relation) ... else if (renameType == ...) ... else`, position
3 from `if (statement->subname)`. -/
def fcinfo1 (objtype : String) (statement : RenameStmt) : Args :=
  let arg0 : Option String := some objtype
  let arg12 : Option String × Option String :=
    match statement.relation with
    | some relation =>
      (match relation.schemaname with
        | some schemaname => some schemaname
        | none => none,
       some relation.relname)
    | none =>
      if statement.renameType = OBJECT_TYPE
          ∨ statement.renameType = OBJECT_FUNCTION
          ∨ statement.renameType = OBJECT_EVENT_TRIGGER
          ∨ statement.renameType = OBJECT_SEQUENCE then
        (none, some (NameListToString statement.object))
      else
        (none, none)
  let arg3 : Option String :=
    match statement.subname with
    | some subname => some subname
    | none => none
  let arg4 : Option String := some statement.newname
  [arg0, arg12.1, arg12.2, arg3, arg4]

/-- The entry point `track_renames(PG_FUNCTION_ARGS)`, lines 34-237. -/
def track_renames (pg : Backend) (context : CallContext) : Outcome :=
  match context with
  | CallContext.notEventTrigger =>
    ⟨[], Except.error "not fired by event trigger manager"⟩
  | CallContext.eventTrigger trigdata =>
    match trigdata.parsetree with
    | Node.T_Other _ => ⟨[], Except.ok none⟩
    | Node.T_RenameStmt statement =>
      match pg.GetConfigOption with
      | none =>
        ⟨[Effect.warning "track_renames.function parameter not set"], Except.ok none⟩
      | some funcname =>
        let function_oid := pg.LookupFuncName funcname
        if function_oid = InvalidOid then
          ⟨[Effect.warning
              ("function " ++ func_signature_string funcname ++ " does not exist")],
            Except.ok none⟩
        else
          let classified := objtype statement.renameType
          let args := fcinfo1 classified.1 statement
          let effects := classified.2 ++ [Effect.invoke function_oid args]
          match pg.FunctionCallInvoke function_oid args with
          | Except.error e => ⟨effects, Except.error e⟩
          | Except.ok _ => ⟨effects, Except.ok none⟩

/-- The handler invocations among the effects of a call, in order. -/
def invocations (o : Outcome) : List (Oid × Args) :=
  o.effects.filterMap fun e =>
    match e with
    | Effect.invoke fn args => some (fn, args)
    | Effect.warning _ => none

/-- The warnings among the effects of a call, in order. -/
def warnings (o : Outcome) : List String :=
  o.effects.filterMap fun e =>
    match e with
    | Effect.warning msg => some msg
    | Effect.invoke _ _ => none

/-- The kinds the `switch` has a `case` label for. -/
def recognised (renameType : ObjectType) : Bool :=
  match renameType with
  | OBJECT_UNRECOGNIZED _ => false
  | _ => true

/-- The 35 kinds with a `case` label, in the order of the labels. -/
def recognisedKinds : List ObjectType :=
  [OBJECT_AGGREGATE, OBJECT_ATTRIBUTE, OBJECT_CAST, OBJECT_COLUMN, OBJECT_CONSTRAINT,
   OBJECT_COLLATION, OBJECT_CONVERSION, OBJECT_DATABASE, OBJECT_DOMAIN, OBJECT_EVENT_TRIGGER,
   OBJECT_EXTENSION, OBJECT_FDW, OBJECT_FOREIGN_SERVER, OBJECT_FOREIGN_TABLE, OBJECT_FUNCTION,
   OBJECT_INDEX, OBJECT_LANGUAGE, OBJECT_LARGEOBJECT, OBJECT_MATVIEW, OBJECT_OPCLASS,
   OBJECT_OPERATOR, OBJECT_OPFAMILY, OBJECT_ROLE, OBJECT_RULE, OBJECT_SCHEMA, OBJECT_SEQUENCE,
   OBJECT_TABLE, OBJECT_TABLESPACE, OBJECT_TRIGGER, OBJECT_TSCONFIGURATION,
   OBJECT_TSDICTIONARY, OBJECT_TSPARSER, OBJECT_TSTEMPLATE, OBJECT_TYPE, OBJECT_VIEW]

/-- The first recognised kind whose token is `token`, if any. -/
def kindOfToken (token : String) : Option ObjectType :=
  recognisedKinds.find? fun k => (objtype k).1 == token

/-- The call context of an event trigger fired for `statement`. -/
def renameEvent (statement : RenameStmt) : CallContext :=
  CallContext.eventTrigger ⟨Node.T_RenameStmt statement⟩

/-! ### Concrete inputs -/

/-- A backend where `track_renames.function` is `on_rename`, which resolves to
oid 16384 and returns SQL null. -/
def configuredBackend : Backend :=
  ⟨some "on_rename", fun name => if name = "on_rename" then 16384 else InvalidOid,
    fun _ _ => Except.ok none⟩

/-- A backend where `track_renames.function` is not set. -/
def unconfiguredBackend : Backend :=
  ⟨none, fun _ => InvalidOid, fun _ _ => Except.ok none⟩

/-- A backend where `track_renames.function` names a function that does not
exist. -/
def danglingBackend : Backend :=
  ⟨some "missing_fn", fun name => if name = "on_rename" then 16384 else InvalidOid,
    fun _ _ => Except.ok none⟩

/-- `ALTER TABLE public.orders RENAME COLUMN id TO order_id`. -/
def renameColumn : RenameStmt :=
  ⟨OBJECT_COLUMN, some ⟨some "public", "orders"⟩, [], some "id", "order_id"⟩

/-- `ALTER TABLE t1 RENAME TO t2`. -/
def renameTable : RenameStmt :=
  ⟨OBJECT_TABLE, some ⟨none, "t1"⟩, [], none, "t2"⟩

/-- `ALTER FUNCTION myschema.myfunc RENAME TO myfunc2`. -/
def renameFunction : RenameStmt :=
  ⟨OBJECT_FUNCTION, none, ["myschema", "myfunc"], none, "myfunc2"⟩

/-- A function rename whose statement also carries a `subname`. -/
def renameFunctionWithSubname : RenameStmt :=
  ⟨OBJECT_FUNCTION, none, ["myschema", "myfunc"], some "part", "myfunc2"⟩

/-- A database rename with no naming field but the new name. -/
def renameDatabase : RenameStmt :=
  ⟨OBJECT_DATABASE, none, [], none, "db2"⟩

/-- A database rename carrying the old name in `subname`. -/
def renameDatabaseWithSubname : RenameStmt :=
  ⟨OBJECT_DATABASE, none, [], some "db1", "db2"⟩

/-- An event trigger rename with neither relation nor name list. -/
def renameEventTriggerBare : RenameStmt :=
  ⟨OBJECT_EVENT_TRIGGER, none, [], none, "trg2"⟩

/-- A rename whose kind has no `case` label. -/
def renameUnrecognized : RenameStmt :=
  ⟨OBJECT_UNRECOGNIZED 35, none, [], none, "n2"⟩

/-- An event trigger call for a statement that is not a rename. -/
def otherStatementEvent : CallContext :=
  CallContext.eventTrigger ⟨Node.T_Other 0⟩

/-- A backend where the configured handler resolves and raises an error when
invoked. -/
def raisingBackend : Backend :=
  ⟨some "on_rename", fun name => if name = "on_rename" then 16384 else InvalidOid,
    fun _ _ => Except.error "handler failed"⟩

/-- A column rename whose schema name and sub-name are both the empty string. -/
def renameColumnEmptyNames : RenameStmt :=
  ⟨OBJECT_COLUMN, some ⟨some "", "orders"⟩, [], some "", "c2"⟩

/-- `ALTER COLLATION public.c1 RENAME TO c2`. -/
def renameCollation : RenameStmt :=
  ⟨OBJECT_COLLATION, none, ["public", "c1"], none, "c2"⟩

/-! ### Helper lemmas -/

theorem foldl_push_eq_go (rest : List String) (acc : String) :
    rest.foldl (fun string name => (string.push '.') ++ name) acc
      = String.intercalate.go acc "." rest := by
  induction rest generalizing acc with
  | nil => rfl
  | cons n rest ih =>
    simp only [List.foldl_cons, String.intercalate.go]
    rw [ih]
    rfl

/-- The loop of `NameListToString` computes the join of the parts with `"."`. -/
theorem NameListToString_eq_intercalate (names : List String) :
    NameListToString names = String.intercalate "." names := by
  cases names with
  | nil => rfl
  | cons n rest => exact foldl_push_eq_go rest n

theorem recognisedKinds_length : recognisedKinds.length = 35 := rfl

theorem mem_recognisedKinds_iff (k : ObjectType) :
    k ∈ recognisedKinds ↔ recognised k = true := by
  cases k <;> simp [recognisedKinds, recognised]

theorem kindOfToken_objtype (k : ObjectType) (h : recognised k = true) :
    kindOfToken (objtype k).1 = some k := by
  cases k <;> first | decide | simp [recognised] at h

/-- The effects and result of a call that reaches the handler. -/
theorem track_renames_dispatch (pg : Backend) (statement : RenameStmt) (funcname : String)
    (hconf : pg.GetConfigOption = some funcname)
    (hres : pg.LookupFuncName funcname ≠ InvalidOid) :
    (track_renames pg (renameEvent statement)).effects =
        (objtype statement.renameType).2 ++
          [Effect.invoke (pg.LookupFuncName funcname)
            (fcinfo1 (objtype statement.renameType).1 statement)] ∧
      ((track_renames pg (renameEvent statement)).result = Except.ok none ∨
        ∃ e, (track_renames pg (renameEvent statement)).result = Except.error e ∧
          pg.FunctionCallInvoke (pg.LookupFuncName funcname)
            (fcinfo1 (objtype statement.renameType).1 statement) = Except.error e) := by
  simp only [track_renames, renameEvent, hconf, if_neg hres]
  cases hcall : pg.FunctionCallInvoke (pg.LookupFuncName funcname)
      (fcinfo1 (objtype statement.renameType).1 statement) with
  | error e => exact ⟨rfl, Or.inr ⟨e, rfl, rfl⟩⟩
  | ok r => exact ⟨rfl, Or.inl rfl⟩

/-- The classifier logs warnings only. -/
theorem objtype_effects (k : ObjectType) :
    (objtype k).2 = if recognised k = true then [] else [Effect.warning "Unknown object type"] := by
  cases k <;> rfl

/-- The handler invocations of a call that reaches the handler. -/
theorem invocations_dispatch (pg : Backend) (statement : RenameStmt) (funcname : String)
    (hconf : pg.GetConfigOption = some funcname)
    (hres : pg.LookupFuncName funcname ≠ InvalidOid) :
    invocations (track_renames pg (renameEvent statement)) =
      [(pg.LookupFuncName funcname, fcinfo1 (objtype statement.renameType).1 statement)] := by
  rw [invocations, (track_renames_dispatch pg statement funcname hconf hres).1, objtype_effects]
  split <;> simp

/-- The five arguments when the statement has a relation. -/
theorem fcinfo1_relation (token : String) (statement : RenameStmt) (relation : RangeVar)
    (hrel : statement.relation = some relation) :
    fcinfo1 token statement =
      [some token, relation.schemaname, some relation.relname, statement.subname,
        some statement.newname] := by
  simp only [fcinfo1, hrel]
  cases relation.schemaname <;> cases statement.subname <;> rfl

/-- The five arguments when the statement has no relation. -/
theorem fcinfo1_no_relation (token : String) (statement : RenameStmt)
    (hrel : statement.relation = none) :
    fcinfo1 token statement =
      [some token, none,
        if statement.renameType = OBJECT_TYPE ∨ statement.renameType = OBJECT_FUNCTION
            ∨ statement.renameType = OBJECT_EVENT_TRIGGER
            ∨ statement.renameType = OBJECT_SEQUENCE
          then some (NameListToString statement.object) else none,
        statement.subname, some statement.newname] := by
  simp only [fcinfo1, hrel]
  split <;> cases statement.subname <;> rfl

/-- The result of a call that reaches the handler is the handler's error, or
null when the handler returns. -/
theorem track_renames_result (pg : Backend) (statement : RenameStmt) (funcname : String)
    (hconf : pg.GetConfigOption = some funcname)
    (hres : pg.LookupFuncName funcname ≠ InvalidOid) :
    (track_renames pg (renameEvent statement)).result =
      match pg.FunctionCallInvoke (pg.LookupFuncName funcname)
          (fcinfo1 (objtype statement.renameType).1 statement) with
      | Except.error e => Except.error e
      | Except.ok _ => Except.ok none := by
  simp only [track_renames, renameEvent, hconf, if_neg hres]
  cases pg.FunctionCallInvoke (pg.LookupFuncName funcname)
      (fcinfo1 (objtype statement.renameType).1 statement) <;> rfl

/-- The warnings of a call that reaches the handler are those of the
classifier. -/
theorem warnings_dispatch (pg : Backend) (statement : RenameStmt) (funcname : String)
    (hconf : pg.GetConfigOption = some funcname)
    (hres : pg.LookupFuncName funcname ≠ InvalidOid) :
    warnings (track_renames pg (renameEvent statement)) =
      if recognised statement.renameType = true then [] else ["Unknown object type"] := by
  rw [warnings, (track_renames_dispatch pg statement funcname hconf hres).1, objtype_effects]
  split <;> simp

/-- Every invocation logged by a call for a rename statement carries the
arguments computed by `fcinfo1`. -/
theorem args_of_invoke (pg : Backend) (statement : RenameStmt) (fn : Oid) (args : Args)
    (hcall : Effect.invoke fn args ∈ (track_renames pg (renameEvent statement)).effects) :
    args = fcinfo1 (objtype statement.renameType).1 statement := by
  cases hconf : pg.GetConfigOption with
  | none => simp [track_renames, renameEvent, hconf] at hcall
  | some funcname =>
    by_cases hres : pg.LookupFuncName funcname = InvalidOid
    · simp [track_renames, renameEvent, hconf, hres] at hcall
    · rw [(track_renames_dispatch pg statement funcname hconf hres).1, objtype_effects] at hcall
      split at hcall <;> simp at hcall <;> exact hcall.2

/-! ### Claims -/

/-- C1: for a rename event whose relation is present, with the handler
configured and resolved, the handler is called once with schemaName the
relation's schema name (absent when it has none), objectName the relation name
and subName the statement's sub-name (absent when it has none); objectType is
the classified kind and newName the new name. -/
theorem C1_relation_scoped_record (pg : Backend) (statement : RenameStmt)
    (funcname : String) (relation : RangeVar)
    (hconf : pg.GetConfigOption = some funcname)
    (hres : pg.LookupFuncName funcname ≠ InvalidOid)
    (hrel : statement.relation = some relation) :
    invocations (track_renames pg (renameEvent statement)) =
      [(pg.LookupFuncName funcname,
        [some (objtype statement.renameType).1, relation.schemaname, some relation.relname,
          statement.subname, some statement.newname])] := by
  rw [invocations_dispatch pg statement funcname hconf hres,
    fcinfo1_relation _ statement relation hrel]

/-- C1 at the two inputs of the specification: the column rename
`public.orders.id -> order_id` and the table rename `t1 -> t2` without schema. -/
theorem C1_relation_scoped_record_witness :
    (configuredBackend.GetConfigOption = some "on_rename" ∧
      configuredBackend.LookupFuncName "on_rename" ≠ InvalidOid ∧
      renameColumn.relation = some ⟨some "public", "orders"⟩ ∧
      invocations (track_renames configuredBackend (renameEvent renameColumn)) =
        [(16384, [some "column", some "public", some "orders", some "id", some "order_id"])]) ∧
    (renameTable.relation = some ⟨none, "t1"⟩ ∧
      invocations (track_renames configuredBackend (renameEvent renameTable)) =
        [(16384, [some "table", none, some "t1", none, some "t2"])]) :=
  ⟨⟨rfl, by decide, rfl,
      C1_relation_scoped_record configuredBackend renameColumn "on_rename"
        ⟨some "public", "orders"⟩ rfl (by decide) rfl⟩,
    ⟨rfl,
      C1_relation_scoped_record configuredBackend renameTable "on_rename"
        ⟨none, "t1"⟩ rfl (by decide) rfl⟩⟩

/-- C2, the claim as stated fails: a function rename with no relation and the
name list `myschema.myfunc` whose statement carries the sub-name `part` reaches
the handler with subName `part`, not absent. -/
theorem C2_subname_counterexample :
    renameFunctionWithSubname.relation = none ∧
    renameFunctionWithSubname.renameType = OBJECT_FUNCTION ∧
    renameFunctionWithSubname.object ≠ [] ∧
    invocations (track_renames configuredBackend (renameEvent renameFunctionWithSubname)) =
      [(16384, [some "function", none, some "myschema.myfunc", some "part",
        some "myfunc2"])] := by
  decide

/-- C2 as amended: for a rename event with no relation, kind type, function,
event_trigger or sequence and a non-empty name list, with the handler
configured and resolved, the handler is called once with schemaName absent,
objectName the name parts joined with "." and subName the statement's sub-name,
absent exactly when the statement has none. -/
theorem C2_qualified_name_record (pg : Backend) (statement : RenameStmt) (funcname : String)
    (hconf : pg.GetConfigOption = some funcname)
    (hres : pg.LookupFuncName funcname ≠ InvalidOid)
    (hrel : statement.relation = none)
    (hkind : statement.renameType = OBJECT_TYPE ∨ statement.renameType = OBJECT_FUNCTION
      ∨ statement.renameType = OBJECT_EVENT_TRIGGER ∨ statement.renameType = OBJECT_SEQUENCE)
    (_hobj : statement.object ≠ []) :
    invocations (track_renames pg (renameEvent statement)) =
      [(pg.LookupFuncName funcname,
        [some (objtype statement.renameType).1, none,
          some (String.intercalate "." statement.object), statement.subname,
          some statement.newname])] := by
  rw [invocations_dispatch pg statement funcname hconf hres,
    fcinfo1_no_relation _ statement hrel, if_pos hkind, NameListToString_eq_intercalate]

/-- C2 as amended, at the input of the specification: the function rename
`myschema.myfunc -> myfunc2` gives schemaName absent, objectName
`myschema.myfunc` and subName absent. -/
theorem C2_qualified_name_record_witness :
    configuredBackend.GetConfigOption = some "on_rename" ∧
    configuredBackend.LookupFuncName "on_rename" ≠ InvalidOid ∧
    renameFunction.relation = none ∧
    renameFunction.renameType = OBJECT_FUNCTION ∧
    renameFunction.object ≠ [] ∧
    invocations (track_renames configuredBackend (renameEvent renameFunction)) =
      [(16384, [some "function", none, some "myschema.myfunc", none, some "myfunc2"])] :=
  ⟨rfl, by decide, rfl, rfl, by decide,
    C2_qualified_name_record configuredBackend renameFunction "on_rename" rfl (by decide) rfl
      (Or.inr (Or.inl rfl)) (by decide)⟩

/-- C3, the claim as stated fails: a database rename with neither relation nor
name list that carries the old name in its sub-name reaches the handler with
subName `db1`, not absent; and an event trigger rename with neither relation
nor name list reaches it with objectName the empty string, not absent. -/
theorem C3_counterexample :
    (renameDatabaseWithSubname.relation = none ∧ renameDatabaseWithSubname.object = [] ∧
      invocations (track_renames configuredBackend (renameEvent renameDatabaseWithSubname)) =
        [(16384, [some "database", none, none, some "db1", some "db2"])]) ∧
    (renameEventTriggerBare.relation = none ∧ renameEventTriggerBare.object = [] ∧
      invocations (track_renames configuredBackend (renameEvent renameEventTriggerBare)) =
        [(16384, [some "event_trigger", none, some "", none, some "trg2"])]) := by
  decide

/-- C3 as amended: for a rename event with neither relation nor name list,
with the handler configured and resolved, the handler is called once with
schemaName absent, subName the statement's sub-name (absent exactly when the
statement has none) and newName the statement's new name; objectName is absent
when the kind is none of type, function, event_trigger and sequence. -/
theorem C3_bare_record (pg : Backend) (statement : RenameStmt) (funcname : String)
    (hconf : pg.GetConfigOption = some funcname)
    (hres : pg.LookupFuncName funcname ≠ InvalidOid)
    (hrel : statement.relation = none)
    (_hobj : statement.object = []) :
    ∃ objectName : Option String,
      invocations (track_renames pg (renameEvent statement)) =
        [(pg.LookupFuncName funcname,
          [some (objtype statement.renameType).1, none, objectName, statement.subname,
            some statement.newname])] ∧
      (¬ (statement.renameType = OBJECT_TYPE ∨ statement.renameType = OBJECT_FUNCTION
          ∨ statement.renameType = OBJECT_EVENT_TRIGGER
          ∨ statement.renameType = OBJECT_SEQUENCE) → objectName = none) := by
  refine ⟨if statement.renameType = OBJECT_TYPE ∨ statement.renameType = OBJECT_FUNCTION
      ∨ statement.renameType = OBJECT_EVENT_TRIGGER ∨ statement.renameType = OBJECT_SEQUENCE
    then some (NameListToString statement.object) else none, ?_, ?_⟩
  · rw [invocations_dispatch pg statement funcname hconf hres,
      fcinfo1_no_relation _ statement hrel]
  · intro hkind
    rw [if_neg hkind]

/-- C3 as amended, at the input of the specification: the database rename to
`db2` gives objectType `database`, the three optional fields absent and newName
`db2`. -/
theorem C3_bare_record_witness :
    configuredBackend.GetConfigOption = some "on_rename" ∧
    configuredBackend.LookupFuncName "on_rename" ≠ InvalidOid ∧
    renameDatabase.relation = none ∧
    renameDatabase.object = [] ∧
    invocations (track_renames configuredBackend (renameEvent renameDatabase)) =
      [(16384, [some "database", none, none, none, some "db2"])] := by
  refine ⟨rfl, by decide, rfl, rfl, ?_⟩
  obtain ⟨objectName, hcall, hname⟩ :=
    C3_bare_record configuredBackend renameDatabase "on_rename" rfl (by decide) rfl rfl
  rw [hcall, hname (by decide)]
  rfl

/-- C4: each of the 35 kinds with a `case` label classifies to a non-empty
token made only of lowercase letters and underscores, and logs no warning. -/
theorem C4_recognised_token (k : ObjectType) (h : k ∈ recognisedKinds) :
    (objtype k).1 ≠ "" ∧
    (objtype k).1.toList.all (fun c => c.isLower || c == '_') = true ∧
    (objtype k).2 = [] := by
  have hk : recognised k = true := (mem_recognisedKinds_iff k).1 h
  cases k <;> first | exact ⟨by decide, by decide, rfl⟩ | simp [recognised] at hk

/-- C4 at the kind event_trigger, whose token has an underscore. -/
theorem C4_recognised_token_witness :
    OBJECT_EVENT_TRIGGER ∈ recognisedKinds ∧
    (objtype OBJECT_EVENT_TRIGGER).1 = "event_trigger" ∧
    (objtype OBJECT_EVENT_TRIGGER).1 ≠ "" ∧
    (objtype OBJECT_EVENT_TRIGGER).1.toList.all (fun c => c.isLower || c == '_') = true ∧
    (objtype OBJECT_EVENT_TRIGGER).2 = [] :=
  ⟨by decide, rfl, C4_recognised_token OBJECT_EVENT_TRIGGER (by decide)⟩

/-- C5: two distinct kinds with a `case` label never classify to the same
token, and no such kind classifies to `unknown`. -/
theorem C5_token_injective (k₁ k₂ : ObjectType)
    (h₁ : recognised k₁ = true) (h₂ : recognised k₂ = true) (hne : k₁ ≠ k₂) :
    (objtype k₁).1 ≠ (objtype k₂).1 ∧ (objtype k₁).1 ≠ "unknown" := by
  constructor
  · intro heq
    have hk := kindOfToken_objtype k₁ h₁
    rw [heq, kindOfToken_objtype k₂ h₂] at hk
    exact hne (Option.some.inj hk).symm
  · cases k₁ <;> first | decide | simp [recognised] at h₁

/-- C5 at the kinds table and tablespace. -/
theorem C5_token_injective_witness :
    recognised OBJECT_TABLE = true ∧ recognised OBJECT_TABLESPACE = true ∧
    OBJECT_TABLE ≠ OBJECT_TABLESPACE ∧
    (objtype OBJECT_TABLE).1 ≠ (objtype OBJECT_TABLESPACE).1 ∧
    (objtype OBJECT_TABLE).1 ≠ "unknown" :=
  ⟨rfl, rfl, by decide,
    C5_token_injective OBJECT_TABLE OBJECT_TABLESPACE rfl rfl (by decide)⟩

/-- C6, the claim as stated fails: for a rename of unrecognised kind with a
resolved handler that raises `handler failed`, the one warning is logged and the
handler is invoked with objectType `unknown`, but the call ends with that
error instead of returning normally. -/
theorem C6_handler_error_counterexample :
    raisingBackend.GetConfigOption = some "on_rename" ∧
    raisingBackend.LookupFuncName "on_rename" ≠ InvalidOid ∧
    recognised renameUnrecognized.renameType = false ∧
    (track_renames raisingBackend (renameEvent renameUnrecognized)).effects =
      [Effect.warning "Unknown object type",
        Effect.invoke 16384 [some "unknown", none, none, none, some "n2"]] ∧
    (track_renames raisingBackend (renameEvent renameUnrecognized)).result =
      Except.error "handler failed" :=
  ⟨rfl, by decide, rfl, by decide, rfl⟩

/-- C6 as amended: for a rename event whose kind has no `case` label, with the
handler configured and resolved, the classified token is `unknown`, the effects
are exactly one warning followed by one handler invocation whose objectType is
`unknown`, and classification raises no error; the call returns normally when
the handler returns, and ends with the handler's error when the handler raises
one. -/
theorem C6_unrecognised_kind (pg : Backend) (statement : RenameStmt) (funcname : String)
    (hconf : pg.GetConfigOption = some funcname)
    (hres : pg.LookupFuncName funcname ≠ InvalidOid)
    (hkind : recognised statement.renameType = false) :
    (objtype statement.renameType).1 = "unknown" ∧
    (track_renames pg (renameEvent statement)).effects =
      [Effect.warning "Unknown object type",
        Effect.invoke (pg.LookupFuncName funcname) (fcinfo1 "unknown" statement)] ∧
    (fcinfo1 "unknown" statement)[0]? = some (some "unknown") ∧
    warnings (track_renames pg (renameEvent statement)) = ["Unknown object type"] ∧
    invocations (track_renames pg (renameEvent statement)) =
      [(pg.LookupFuncName funcname, fcinfo1 "unknown" statement)] ∧
    (∀ r, pg.FunctionCallInvoke (pg.LookupFuncName funcname) (fcinfo1 "unknown" statement)
        = Except.ok r →
      (track_renames pg (renameEvent statement)).result = Except.ok none) ∧
    (∀ e, pg.FunctionCallInvoke (pg.LookupFuncName funcname) (fcinfo1 "unknown" statement)
        = Except.error e →
      (track_renames pg (renameEvent statement)).result = Except.error e) := by
  have heff := (track_renames_dispatch pg statement funcname hconf hres).1
  have hinv := invocations_dispatch pg statement funcname hconf hres
  have hwarn := warnings_dispatch pg statement funcname hconf hres
  have hresult := track_renames_result pg statement funcname hconf hres
  cases hk : statement.renameType with
  | OBJECT_UNRECOGNIZED tag =>
    rw [hk] at heff hinv hresult
    have hobj : objtype (OBJECT_UNRECOGNIZED tag)
        = ("unknown", [Effect.warning "Unknown object type"]) := rfl
    rw [hobj] at heff hinv hresult
    rw [hkind] at hwarn
    refine ⟨rfl, heff, rfl, hwarn, hinv, ?_, ?_⟩
    · intro r hr
      rw [hresult, hr]
    · intro e he
      rw [hresult, he]
  | _ => rw [hk] at hkind; simp [recognised] at hkind

/-- C6 as amended, at a rename whose kind is the integer 35, one past the last
enum member, with a handler that returns: one warning, then the handler called
with objectType `unknown`, and a normal return. -/
theorem C6_unrecognised_kind_witness :
    configuredBackend.GetConfigOption = some "on_rename" ∧
    configuredBackend.LookupFuncName "on_rename" ≠ InvalidOid ∧
    recognised renameUnrecognized.renameType = false ∧
    (objtype renameUnrecognized.renameType).1 = "unknown" ∧
    (track_renames configuredBackend (renameEvent renameUnrecognized)).effects =
      [Effect.warning "Unknown object type",
        Effect.invoke 16384 [some "unknown", none, none, none, some "n2"]] ∧
    (track_renames configuredBackend (renameEvent renameUnrecognized)).result = Except.ok none :=
  ⟨rfl, by decide, rfl,
    (C6_unrecognised_kind configuredBackend renameUnrecognized "on_rename" rfl (by decide)
      rfl).1,
    (C6_unrecognised_kind configuredBackend renameUnrecognized "on_rename" rfl (by decide)
      rfl).2.1,
    (C6_unrecognised_kind configuredBackend renameUnrecognized "on_rename" rfl (by decide)
      rfl).2.2.2.2.2.1 none rfl⟩

/-- C7: whenever the handler is invoked, the call is for a rename statement
and the argument list has exactly the five positions (objectType, schemaName,
objectName, subName, newName): position 0 is present and is the classified
token of the statement's kind, position 4 is present and is the statement's new
name, position 1 is the schema name of the relation, position 2 is the relation
name when there is a relation, position 3 is the statement's sub-name. -/
theorem C7_argument_positions (pg : Backend) (context : CallContext) (fn : Oid) (args : Args)
    (hcall : Effect.invoke fn args ∈ (track_renames pg context).effects) :
    ∃ statement : RenameStmt,
      context = renameEvent statement ∧
      args.length = 5 ∧
      args[0]? = some (some (objtype statement.renameType).1) ∧
      args[1]? = some (statement.relation.bind RangeVar.schemaname) ∧
      (∀ relation, statement.relation = some relation →
        args[2]? = some (some relation.relname)) ∧
      args[3]? = some statement.subname ∧
      args[4]? = some (some statement.newname) := by
  cases context with
  | notEventTrigger => simp [track_renames] at hcall
  | eventTrigger trigdata =>
    obtain ⟨parsetree⟩ := trigdata
    cases parsetree with
    | T_Other tag => simp [track_renames] at hcall
    | T_RenameStmt statement =>
      refine ⟨statement, rfl, ?_⟩
      cases hconf : pg.GetConfigOption with
      | none => simp [track_renames, hconf] at hcall
      | some funcname =>
        by_cases hres : pg.LookupFuncName funcname = InvalidOid
        · simp [track_renames, hconf, hres] at hcall
        · have heff := (track_renames_dispatch pg statement funcname hconf hres).1
          rw [renameEvent] at heff
          rw [heff, objtype_effects] at hcall
          have hargs : args = fcinfo1 (objtype statement.renameType).1 statement := by
            split at hcall <;> simp at hcall <;> exact hcall.2
          subst hargs
          cases hrel : statement.relation with
          | none =>
            rw [fcinfo1_no_relation _ statement hrel]
            simp
          | some relation =>
            rw [fcinfo1_relation _ statement relation hrel]
            simp

/-- C7 at the column rename `public.orders.id -> order_id`. -/
theorem C7_argument_positions_witness :
    Effect.invoke 16384 [some "column", some "public", some "orders", some "id", some "order_id"]
        ∈ (track_renames configuredBackend (renameEvent renameColumn)).effects ∧
    ∃ statement : RenameStmt,
      renameEvent renameColumn = renameEvent statement ∧
      [some "column", some "public", some "orders", some "id", some "order_id"].length = 5 ∧
      [some "column", some "public", some "orders", some "id", some "order_id"][0]?
        = some (some (objtype statement.renameType).1) ∧
      [some "column", some "public", some "orders", some "id", some "order_id"][1]?
        = some (statement.relation.bind RangeVar.schemaname) ∧
      (∀ relation, statement.relation = some relation →
        [some "column", some "public", some "orders", some "id", some "order_id"][2]?
          = some (some relation.relname)) ∧
      [some "column", some "public", some "orders", some "id", some "order_id"][3]?
        = some statement.subname ∧
      [some "column", some "public", some "orders", some "id", some "order_id"][4]?
        = some (some statement.newname) :=
  ⟨by decide,
    C7_argument_positions configuredBackend (renameEvent renameColumn) 16384
      [some "column", some "public", some "orders", some "id", some "order_id"] (by decide)⟩

/-- C8: for a rename event fired in event-trigger context with a handler that
is configured and resolvable, the handler is invoked exactly once; for every
call when no handler is configured, it is invoked zero times. -/
theorem C8_invocation_count (pg : Backend) (context : CallContext) :
    (∀ statement funcname, context = renameEvent statement →
      pg.GetConfigOption = some funcname → pg.LookupFuncName funcname ≠ InvalidOid →
      (invocations (track_renames pg context)).length = 1) ∧
    (pg.GetConfigOption = none → (invocations (track_renames pg context)).length = 0) := by
  constructor
  · intro statement funcname hctx hconf hres
    rw [hctx, invocations_dispatch pg statement funcname hconf hres]
    rfl
  · intro hconf
    cases context with
    | notEventTrigger => rfl
    | eventTrigger trigdata =>
      obtain ⟨parsetree⟩ := trigdata
      cases parsetree with
      | T_Other tag => rfl
      | T_RenameStmt statement =>
        simp [track_renames, hconf, invocations]

/-- C8 at the table rename `t1 -> t2`: one invocation with the configured
backend, none with the unconfigured one. -/
theorem C8_invocation_count_witness :
    (configuredBackend.GetConfigOption = some "on_rename" ∧
      configuredBackend.LookupFuncName "on_rename" ≠ InvalidOid ∧
      (invocations (track_renames configuredBackend (renameEvent renameTable))).length = 1) ∧
    (unconfiguredBackend.GetConfigOption = none ∧
      (invocations (track_renames unconfiguredBackend (renameEvent renameTable))).length = 0) :=
  ⟨⟨rfl, by decide,
      (C8_invocation_count configuredBackend (renameEvent renameTable)).1 renameTable
        "on_rename" rfl rfl (by decide)⟩,
    ⟨rfl, (C8_invocation_count unconfiguredBackend (renameEvent renameTable)).2 rfl⟩⟩

/-- C9: for a rename event of any kind, when the handler name is unset, or is
set and resolves to no function, the only effect is one warning, the handler is
not invoked and the call returns normally. -/
theorem C9_unresolved_handler (pg : Backend) (statement : RenameStmt)
    (h : pg.GetConfigOption = none ∨
      ∃ funcname, pg.GetConfigOption = some funcname ∧
        pg.LookupFuncName funcname = InvalidOid) :
    (∃ msg, (track_renames pg (renameEvent statement)).effects = [Effect.warning msg]) ∧
    (warnings (track_renames pg (renameEvent statement))).length = 1 ∧
    invocations (track_renames pg (renameEvent statement)) = [] ∧
    (track_renames pg (renameEvent statement)).result = Except.ok none := by
  rcases h with hconf | ⟨funcname, hconf, hres⟩
  · simp [track_renames, renameEvent, hconf, warnings, invocations]
  · simp [track_renames, renameEvent, hconf, hres, warnings, invocations]

/-- C9 at a rename of unrecognised kind with the handler name unset, and at
the table rename `t1 -> t2` with a handler name that resolves to no function. -/
theorem C9_unresolved_handler_witness :
    (unconfiguredBackend.GetConfigOption = none ∧
      (track_renames unconfiguredBackend (renameEvent renameUnrecognized)).effects =
        [Effect.warning "track_renames.function parameter not set"] ∧
      (track_renames unconfiguredBackend (renameEvent renameUnrecognized)).result =
        Except.ok none) ∧
    ((∃ funcname, danglingBackend.GetConfigOption = some funcname ∧
        danglingBackend.LookupFuncName funcname = InvalidOid) ∧
      (track_renames danglingBackend (renameEvent renameTable)).effects =
        [Effect.warning
          "function missing_fn(text, text, text, text, text) does not exist"] ∧
      (track_renames danglingBackend (renameEvent renameTable)).result = Except.ok none) :=
  ⟨⟨rfl, by decide,
      (C9_unresolved_handler unconfiguredBackend renameUnrecognized (Or.inl rfl)).2.2.2⟩,
    ⟨⟨"missing_fn", rfl, by decide⟩, by decide,
      (C9_unresolved_handler danglingBackend renameTable
        (Or.inr ⟨"missing_fn", rfl, by decide⟩)).2.2.2⟩⟩

/-- C10, the claim as stated fails: an event-trigger call for a statement that
is not a rename returns normally with a null result, with no effect. -/
theorem C10_not_rename_counterexample :
    (track_renames configuredBackend otherStatementEvent).result = Except.ok none ∧
    (track_renames configuredBackend otherStatementEvent).effects = [] :=
  ⟨rfl, rfl⟩

/-- C10 as amended: for every event-trigger call whose statement is not a
rename statement, the entry point returns normally with a null result; it logs
no warning and does not invoke the handler, whatever the configuration. -/
theorem C10_not_rename_returns_null (pg : Backend) (tag : Nat) :
    (track_renames pg (CallContext.eventTrigger ⟨Node.T_Other tag⟩)).result = Except.ok none ∧
    (track_renames pg (CallContext.eventTrigger ⟨Node.T_Other tag⟩)).effects = [] :=
  ⟨rfl, rfl⟩

/-- C11: a call that is not made by the event trigger manager raises the error
`not fired by event trigger manager`; it logs no warning and invokes no handler,
and it does so whatever the backend holds, the configuration being read only
after this check. -/
theorem C11_not_event_trigger (pg : Backend) :
    (track_renames pg CallContext.notEventTrigger).result =
      Except.error "not fired by event trigger manager" ∧
    (track_renames pg CallContext.notEventTrigger).effects = [] ∧
    warnings (track_renames pg CallContext.notEventTrigger) = [] ∧
    invocations (track_renames pg CallContext.notEventTrigger) = [] ∧
    ∀ other : Backend,
      (track_renames other CallContext.notEventTrigger).result =
          (track_renames pg CallContext.notEventTrigger).result ∧
        (track_renames other CallContext.notEventTrigger).effects =
          (track_renames pg CallContext.notEventTrigger).effects :=
  ⟨rfl, rfl, rfl, rfl, fun _ => ⟨rfl, rfl⟩⟩

/-- C12, the claim as stated fails: with a resolved handler that raises
`handler failed`, the table rename `t1 -> t2` ends with that error and no
warning is logged. -/
theorem C12_handler_error_counterexample :
    (track_renames raisingBackend (renameEvent renameTable)).result =
      Except.error "handler failed" ∧
    warnings (track_renames raisingBackend (renameEvent renameTable)) = [] ∧
    invocations (track_renames raisingBackend (renameEvent renameTable)) =
      [(16384, [some "table", none, some "t1", none, some "t2"])] :=
  ⟨rfl, by decide, by decide⟩

/-- C12 as amended: for a rename event with a resolved handler whose invocation
raises an error, the call ends with that same error; the handler has been
invoked once, and no warning reports the failure: the only warning there can be
is the classifier's, for a kind without a `case` label. -/
theorem C12_handler_error_propagates (pg : Backend) (statement : RenameStmt)
    (funcname e : String)
    (hconf : pg.GetConfigOption = some funcname)
    (hres : pg.LookupFuncName funcname ≠ InvalidOid)
    (hraise : pg.FunctionCallInvoke (pg.LookupFuncName funcname)
      (fcinfo1 (objtype statement.renameType).1 statement) = Except.error e) :
    (track_renames pg (renameEvent statement)).result = Except.error e ∧
    warnings (track_renames pg (renameEvent statement)) =
      (if recognised statement.renameType = true then [] else ["Unknown object type"]) ∧
    invocations (track_renames pg (renameEvent statement)) =
      [(pg.LookupFuncName funcname, fcinfo1 (objtype statement.renameType).1 statement)] := by
  refine ⟨?_, warnings_dispatch pg statement funcname hconf hres,
    invocations_dispatch pg statement funcname hconf hres⟩
  rw [track_renames_result pg statement funcname hconf hres, hraise]

/-- C12 as amended, at the column rename `public.orders.id -> order_id` with
the raising handler. -/
theorem C12_handler_error_propagates_witness :
    raisingBackend.GetConfigOption = some "on_rename" ∧
    raisingBackend.LookupFuncName "on_rename" ≠ InvalidOid ∧
    raisingBackend.FunctionCallInvoke (raisingBackend.LookupFuncName "on_rename")
      (fcinfo1 (objtype renameColumn.renameType).1 renameColumn)
        = Except.error "handler failed" ∧
    (track_renames raisingBackend (renameEvent renameColumn)).result
      = Except.error "handler failed" :=
  ⟨rfl, by decide, rfl,
    (C12_handler_error_propagates raisingBackend renameColumn "on_rename" "handler failed"
      rfl (by decide) rfl).1⟩

/-- The two nullable name strings keep the difference between absent and empty
in every record passed to the handler for a rename event.  A schema
name of a present relation that is the empty string is passed as a present
empty string, and so is a sub-name that is the empty string; an absent schema
name (no relation, or a relation without schema) and an absent sub-name are
passed as the absent marker, never as an empty string. -/
theorem nullable_names_absent_distinct_from_empty (pg : Backend) (statement : RenameStmt)
    (fn : Oid) (args : Args)
    (hcall : Effect.invoke fn args ∈ (track_renames pg (renameEvent statement)).effects) :
    (∀ relation, statement.relation = some relation → relation.schemaname = some "" →
      args[1]? = some (some "")) ∧
    (statement.subname = some "" → args[3]? = some (some "")) ∧
    (statement.relation.bind RangeVar.schemaname = none →
      args[1]? = some none ∧ args[1]? ≠ some (some "")) ∧
    (statement.subname = none → args[3]? = some none ∧ args[3]? ≠ some (some "")) := by
  have hargs := args_of_invoke pg statement fn args hcall
  subst hargs
  cases hrel : statement.relation with
  | none =>
    rw [fcinfo1_no_relation _ statement hrel]
    refine ⟨?_, ?_, ?_, ?_⟩
    · intro relation h
      cases h
    · intro h
      simp [h]
    · intro _
      simp
    · intro h
      simp [h]
  | some relation =>
    rw [fcinfo1_relation _ statement relation hrel]
    refine ⟨?_, ?_, ?_, ?_⟩
    · intro r h hs
      cases h
      simp [hs]
    · intro h
      simp [h]
    · intro h
      simp only [Option.bind] at h
      simp [h]
    · intro h
      simp [h]

/-- C14: in every record passed to the handler for a rename event, position 3
is the statement's sub-name as it is, whatever the kind, the relation and the
name list: it is present with value `s` exactly when the raw sub-name is
present with value `s`, also when there is no relation. -/
theorem C14_subname_passthrough (pg : Backend) (statement : RenameStmt)
    (fn : Oid) (args : Args)
    (hcall : Effect.invoke fn args ∈ (track_renames pg (renameEvent statement)).effects) :
    args[3]? = some statement.subname ∧
    ∀ s : String, args[3]? = some (some s) ↔ statement.subname = some s := by
  have hargs := args_of_invoke pg statement fn args hcall
  subst hargs
  have h3 : (fcinfo1 (objtype statement.renameType).1 statement)[3]?
      = some statement.subname := by
    cases hrel : statement.relation with
    | none => rw [fcinfo1_no_relation _ statement hrel]; rfl
    | some relation => rw [fcinfo1_relation _ statement relation hrel]; rfl
  refine ⟨h3, fun s => ?_⟩
  rw [h3]
  simp

/-- C14 at a database rename, without relation, that carries the old name `db1`
in its sub-name. -/
theorem C14_subname_passthrough_witness :
    Effect.invoke 16384 [some "database", none, none, some "db1", some "db2"]
      ∈ (track_renames configuredBackend (renameEvent renameDatabaseWithSubname)).effects ∧
    renameDatabaseWithSubname.relation = none ∧
    [some "database", none, none, some "db1", some "db2"][3]?
      = some renameDatabaseWithSubname.subname ∧
    renameDatabaseWithSubname.subname = some "db1" :=
  ⟨by decide, rfl,
    (C14_subname_passthrough configuredBackend renameDatabaseWithSubname 16384
      [some "database", none, none, some "db1", some "db2"] (by decide)).1, rfl⟩

/-- C15: in every record passed to the handler for a rename event with no
relation and a kind other than type, function, event_trigger and sequence,
schemaName and objectName are both absent, whatever the name list holds. -/
theorem C15_qualified_name_dropped (pg : Backend) (statement : RenameStmt)
    (fn : Oid) (args : Args)
    (hcall : Effect.invoke fn args ∈ (track_renames pg (renameEvent statement)).effects)
    (hrel : statement.relation = none)
    (hkind : ¬ (statement.renameType = OBJECT_TYPE ∨ statement.renameType = OBJECT_FUNCTION
      ∨ statement.renameType = OBJECT_EVENT_TRIGGER
      ∨ statement.renameType = OBJECT_SEQUENCE)) :
    args[1]? = some none ∧ args[2]? = some none := by
  have hargs := args_of_invoke pg statement fn args hcall
  subst hargs
  rw [fcinfo1_no_relation _ statement hrel, if_neg hkind]
  exact ⟨rfl, rfl⟩

/-- C15 at the collation rename `public.c1 -> c2`, whose name list is not
empty. -/
theorem C15_qualified_name_dropped_witness :
    Effect.invoke 16384 [some "collation", none, none, none, some "c2"]
      ∈ (track_renames configuredBackend (renameEvent renameCollation)).effects ∧
    renameCollation.relation = none ∧
    renameCollation.object = ["public", "c1"] ∧
    ¬ (renameCollation.renameType = OBJECT_TYPE ∨ renameCollation.renameType = OBJECT_FUNCTION
      ∨ renameCollation.renameType = OBJECT_EVENT_TRIGGER
      ∨ renameCollation.renameType = OBJECT_SEQUENCE) ∧
    [some "collation", none, none, none, some "c2"][1]? = some none ∧
    [some "collation", none, none, none, some "c2"][2]? = some none :=
  ⟨by decide, rfl, rfl, by decide,
    C15_qualified_name_dropped configuredBackend renameCollation 16384
      [some "collation", none, none, none, some "c2"] (by decide) rfl (by decide)⟩

/-- C16: in every record passed to the handler for a rename event, schemaName
is present with value `s` exactly when the statement has a relation whose
schema name is `s`; and then objectName is present and is that relation's
name. -/
theorem C16_schema_implies_relation (pg : Backend) (statement : RenameStmt)
    (fn : Oid) (args : Args)
    (hcall : Effect.invoke fn args ∈ (track_renames pg (renameEvent statement)).effects) :
    ∀ s : String,
      (args[1]? = some (some s) ↔
        ∃ relation, statement.relation = some relation ∧ relation.schemaname = some s) ∧
      (args[1]? = some (some s) →
        ∃ relation, statement.relation = some relation ∧
          args[2]? = some (some relation.relname)) := by
  have hargs := args_of_invoke pg statement fn args hcall
  subst hargs
  intro s
  cases hrel : statement.relation with
  | none =>
    rw [fcinfo1_no_relation _ statement hrel]
    simp
  | some relation =>
    rw [fcinfo1_relation _ statement relation hrel]
    simp

/-- C16 at the column rename `public.orders.id -> order_id`: schemaName
`public` comes with objectName `orders`, the relation's name. -/
theorem C16_schema_implies_relation_witness :
    Effect.invoke 16384 [some "column", some "public", some "orders", some "id", some "order_id"]
      ∈ (track_renames configuredBackend (renameEvent renameColumn)).effects ∧
    [some "column", some "public", some "orders", some "id", some "order_id"][1]?
      = some (some "public") ∧
    ∃ relation, renameColumn.relation = some relation ∧
      [some "column", some "public", some "orders", some "id", some "order_id"][2]?
        = some (some relation.relname) :=
  ⟨by decide, rfl,
    (C16_schema_implies_relation configuredBackend renameColumn 16384
      [some "column", some "public", some "orders", some "id", some "order_id"] (by decide)
      "public").2 rfl⟩

end TrackRenames
